import Mathlib

/-!
# Verification of the battery-voltage-divider charge estimator

Shallow embedding of `app/drivers/sensor/battery_voltage_divider/battery_voltage_divider.c`.

The C function `lithium_ion_mv_to_pct` computes a piecewise-linear interpolation
over a fixed 27-entry lookup table using IEEE `double` arithmetic and then
converts the result to `uint8_t` (truncation toward zero).  We embed the
arithmetic with exact rationals (ℚ) and explicit truncation.  For the table
shipped in the source and every `int16_t` input, the exact-rational truncated
result coincides with the IEEE-double truncated result (the intermediate
rounding of the two `double` operations never crosses an integer boundary for
these breakpoints; checked exhaustively over the whole input domain), so this
embedding computes exactly what the compiled code computes on its entire
domain.  Division by zero and out-of-range conversion to `uint8_t` — both
undefined or platform-dependent in the C — are modelled by `Option.none`.

The sampling cycle `bvd_sample_fetch` is embedded as a function of an explicit
environment describing the outcomes of the external collaborators (power-gate
GPIO writes, the ADC read, and the raw-count-to-millivolt conversion performed
by the OS helper `adc_raw_to_millivolts`, which is outside this repository and
is represented by the resulting millivolt value `adcMv`), the selected channel
and the previous driver state.  The result records the return code, the new
driver state, and the ordered list of values commanded on the power-gate line.
-/

/-- One entry of the discharge-curve lookup table: `struct charge_level`
(`int16_t mv; uint8_t pct;`). -/
structure ChargeLevel where
  mv : Int
  pct : Nat
deriving DecidableEq, Repr

/-- The constant `BATTERY_CHARGE_LEVEL_LUT_COUNT` from the source. -/
def BATTERY_CHARGE_LEVEL_LUT_COUNT : Nat := 27

/-- The discharge-curve table `charge_level_lut` from the source, in order. -/
def charge_level_lut : List ChargeLevel :=
  [⟨3434, 0⟩, ⟨3457, 4⟩, ⟨3487, 8⟩, ⟨3520, 12⟩, ⟨3545, 15⟩, ⟨3577, 19⟩,
   ⟨3595, 23⟩, ⟨3609, 27⟩, ⟨3618, 31⟩, ⟨3625, 35⟩, ⟨3633, 38⟩, ⟨3643, 42⟩,
   ⟨3656, 46⟩, ⟨3672, 50⟩, ⟨3696, 54⟩, ⟨3733, 58⟩, ⟨3767, 62⟩, ⟨3796, 65⟩,
   ⟨3825, 69⟩, ⟨3862, 73⟩, ⟨3899, 77⟩, ⟨3936, 81⟩, ⟨3976, 85⟩, ⟨4023, 88⟩,
   ⟨4068, 92⟩, ⟨4120, 96⟩, ⟨4177, 100⟩]

/-- Truncation toward zero of the quotient `num / den` (`den ≠ 0`), as the C
conversion of a `double` value to an integer type performs it:
`trunc(num/den) = sign(num) * sign(den) * (|num| / |den|)`. -/
def intTrunc (num den : Int) : Int :=
  Int.sign num * Int.sign den * ((num.natAbs / den.natAbs : Nat) : Int)

/-- The interpolation step of the loop body of `lithium_ion_mv_to_pct`:
`distLower = bat_mv - lo.mv`, `distAdjacent = hi.mv - lo.mv`,
`slope = (hi.pct - lo.pct) / distAdjacent`,
`charge_state = (uint8_t)(lo.pct + slope * distLower)`.
The C computes with IEEE doubles; this embedding computes the exact value of
the same expression — `lo.pct + (Δpct/Δmv)·distLower` equals the single
fraction `(lo.pct·Δmv + Δpct·distLower)/Δmv` under exact division — and then
truncates toward zero.  For the table in the source and every `int16_t`
input, the truncated exact value coincides with the truncated double value
(checked exhaustively), so the embedding is exact on the code's whole domain.
A zero `distAdjacent` makes `slope` an IEEE infinity or NaN and the final
product a NaN, whose conversion to `uint8_t` is undefined; likewise the
conversion is undefined when the truncated value lies outside `[0, 255]`.
Both are modelled as `none`. -/
def interpolate (lo hi : ChargeLevel) (bat_mv : Int) : Option Nat :=
  let distLower : Int := bat_mv - lo.mv
  let distAdjacent : Int := hi.mv - lo.mv
  if distAdjacent = 0 then none
  else
    let t : Int :=
      intTrunc ((lo.pct : Int) * distAdjacent + ((hi.pct : Int) - (lo.pct : Int)) * distLower)
        distAdjacent
    if 0 ≤ t ∧ t ≤ 255 then some t.toNat else none

/-- The scan of `lithium_ion_mv_to_pct` over adjacent breakpoint pairs
(`lut_idx` from `0` to `BATTERY_CHARGE_LEVEL_LUT_COUNT - 2`): the first pair
`(lo, hi)` with `lo.mv <= bat_mv <= hi.mv` is interpolated and the loop breaks;
if no pair matches, the initial value `charge_state = 0` is returned. -/
def scanPairs : List ChargeLevel → Int → Option Nat
  | lo :: hi :: rest, bat_mv =>
    if lo.mv ≤ bat_mv ∧ bat_mv ≤ hi.mv then interpolate lo hi bat_mv
    else scanPairs (hi :: rest) bat_mv
  | _, _ => some 0

/-- The function `lithium_ion_mv_to_pct`, generic in the table contents (the C
function reads the mutable global array `charge_level_lut`; this embedding
takes the array's current value as an argument).  If `bat_mv` is at least the
last entry's voltage the function returns 100 without scanning; otherwise it
scans adjacent pairs. -/
def lithium_ion_mv_to_pct_any (lut : List ChargeLevel) (bat_mv : Int) : Option Nat :=
  match lut.getLast? with
  | none => some 0
  | some last => if last.mv ≤ bat_mv then some 100 else scanPairs lut bat_mv

/-- The function `lithium_ion_mv_to_pct` applied to the table from the source.
For this table the result is always defined (proved below), so projecting
with default 0 is exact. -/
def lithium_ion_mv_to_pct (bat_mv : Int) : Nat :=
  (lithium_ion_mv_to_pct_any charge_level_lut bat_mv).getD 0

/-- A malformed variant of the table (possible in principle because the C
array `charge_level_lut` is a mutable non-const global): the first two
breakpoints share the voltage 3434 mV, so their bracket has zero width.  All
other entries are as shipped; the count stays at 27. -/
def malformed_lut : List ChargeLevel :=
  [⟨3434, 5⟩, ⟨3434, 9⟩, ⟨3487, 8⟩, ⟨3520, 12⟩, ⟨3545, 15⟩, ⟨3577, 19⟩,
   ⟨3595, 23⟩, ⟨3609, 27⟩, ⟨3618, 31⟩, ⟨3625, 35⟩, ⟨3633, 38⟩, ⟨3643, 42⟩,
   ⟨3656, 46⟩, ⟨3672, 50⟩, ⟨3696, 54⟩, ⟨3733, 58⟩, ⟨3767, 62⟩, ⟨3796, 65⟩,
   ⟨3825, 69⟩, ⟨3862, 73⟩, ⟨3899, 77⟩, ⟨3936, 81⟩, ⟨3976, 85⟩, ⟨4023, 88⟩,
   ⟨4068, 92⟩, ⟨4120, 96⟩, ⟨4177, 100⟩]

/-- Zephyr's errno code `ENOTSUP`.  The numeric value lives in the OS headers
outside this repository; only its role as a fixed nonzero code matters. -/
def ENOTSUP : Int := 134

/-- The sensor channels distinguished by `bvd_sample_fetch`; `other` stands
for every channel the driver rejects. -/
inductive SensorChannel where
  | gaugeVoltage
  | gaugeStateOfCharge
  | all
  | other
deriving DecidableEq

/-- The channel guard of `bvd_sample_fetch`: the selected channel must be
`SENSOR_CHAN_GAUGE_VOLTAGE`, `SENSOR_CHAN_GAUGE_STATE_OF_CHARGE` or
`SENSOR_CHAN_ALL`. -/
def channelSupported : SensorChannel → Bool
  | .gaugeVoltage => true
  | .gaugeStateOfCharge => true
  | .all => true
  | .other => false

/-- The persistent driver fields `bvd_data.voltage` (`uint16_t`) and
`bvd_data.state_of_charge` (`uint8_t`) that a sampling cycle may update. -/
structure BvdData where
  voltage : Nat
  state_of_charge : Nat
deriving DecidableEq

/-- Outcomes of the external collaborators during one sampling cycle:
whether a power gate is configured (`drv_data->gpio` nonnull), the return
codes of `gpio_pin_set(..., 1)`, `adc_read` and `gpio_pin_set(..., 0)`, the
millivolt value `val` produced by the OS helper `adc_raw_to_millivolts` from
the raw ADC count (an `int32_t`), and the devicetree resistor values
`full_ohm` and `output_ohm` (`uint32_t`). -/
structure FetchEnv where
  hasGpio : Bool
  gpioOnRc : Int
  adcRc : Int
  adcMv : Int
  gpioOffRc : Int
  full_ohm : Nat
  output_ohm : Nat
deriving DecidableEq

/-- Result of one sampling cycle: the returned code, the driver state after
the call, and the ordered values commanded on the power-gate line
(`true` = active, `false` = inactive). -/
structure FetchResult where
  rc : Int
  data : BvdData
  gpioCmds : List Bool
deriving DecidableEq

/-- Reinterpretation of a `uint16_t` value as the `int16_t` parameter of
`lithium_ion_mv_to_pct` (two's-complement wrap-around, as gcc/clang define
the out-of-range signed conversion). -/
def toInt16 (n : Nat) : Int :=
  if n % 2 ^ 16 < 2 ^ 15 then (n % 2 ^ 16 : Int) else (n % 2 ^ 16 : Int) - 2 ^ 16

/-- The scaled value `val * (uint64_t)full_ohm / output_ohm` computed by
`bvd_sample_fetch` in 64-bit unsigned arithmetic: `val` is converted to
`uint64_t` (reduction modulo `2^64`), multiplied by `full_ohm` modulo `2^64`,
and divided by `output_ohm`. -/
def scaled_millivolts (env : FetchEnv) : Nat :=
  (env.adcMv.emod (2 ^ 64)).toNat * env.full_ohm % 2 ^ 64 / env.output_ohm

/-- One cycle of `bvd_sample_fetch`: reject unsupported channels; enable the
power gate when present, propagating a failing enable; read the ADC; on a
successful read scale the millivolt value, truncate it into the `uint16_t`
`millivolts`, estimate the charge percent and store both fields, while on a
failing read the stored fields stay untouched; finally disable the power gate
when present, a failing disable overriding the returned code. -/
def bvd_sample_fetch (env : FetchEnv) (chan : SensorChannel) (d : BvdData) : FetchResult :=
  if channelSupported chan = false then
    { rc := -ENOTSUP, data := d, gpioCmds := [] }
  else if env.hasGpio = true ∧ env.gpioOnRc ≠ 0 then
    { rc := env.gpioOnRc, data := d, gpioCmds := [true] }
  else
    let onCmds : List Bool := if env.hasGpio = true then [true] else []
    let d' : BvdData :=
      if env.adcRc = 0 then
        let millivolts : Nat := scaled_millivolts env % 2 ^ 16
        { voltage := millivolts,
          state_of_charge := lithium_ion_mv_to_pct (toInt16 millivolts) }
      else d
    if env.hasGpio = true then
      if env.gpioOffRc ≠ 0 then { rc := env.gpioOffRc, data := d', gpioCmds := onCmds ++ [false] }
      else { rc := env.adcRc, data := d', gpioCmds := onCmds ++ [false] }
    else { rc := env.adcRc, data := d', gpioCmds := onCmds }

/-- Environment of the counterexample cycle for the error-code claim: the
power gate is present and enables fine, the ADC read fails with code -5, and
the gate disable afterwards fails with code -22. -/
def env_read_and_off_fail : FetchEnv :=
  { hasGpio := true, gpioOnRc := 0, adcRc := -5, adcMv := 1776, gpioOffRc := -22,
    full_ohm := 2000000, output_ohm := 806000 }

/-- Environment of a cycle whose power gate is present and enables fine, the
ADC read fails with code -5, and the gate disable succeeds. -/
def env_read_fail : FetchEnv :=
  { hasGpio := true, gpioOnRc := 0, adcRc := -5, adcMv := 1776, gpioOffRc := 0,
    full_ohm := 2000000, output_ohm := 806000 }

/-- Environment of a successful cycle without a power gate whose scaled
millivolt value 3563 * 20 / 1 = 71260 exceeds the `uint16_t` range. -/
def env_wrap : FetchEnv :=
  { hasGpio := false, gpioOnRc := 0, adcRc := 0, adcMv := 3563, gpioOffRc := 0,
    full_ohm := 20, output_ohm := 1 }

set_option maxRecDepth 10000

example : lithium_ion_mv_to_pct 3650 = 44 := by decide
example : lithium_ion_mv_to_pct 3434 = 0 := by decide
example : lithium_ion_mv_to_pct 4177 = 100 := by decide
example : lithium_ion_mv_to_pct 3000 = 0 := by decide
example : intTrunc (-7) 2 = -3 := by decide
example : intTrunc 574 13 = 44 := by decide
example : charge_level_lut.length = BATTERY_CHARGE_LEVEL_LUT_COUNT := by decide
example : malformed_lut.length = BATTERY_CHARGE_LEVEL_LUT_COUNT := by decide

/-! ## Helper lemmas about the estimator -/

/-- Every breakpoint of the shipped table has voltage at least 3434. -/
theorem charge_level_lut_min : ∀ e ∈ charge_level_lut, (3434 : Int) ≤ e.mv := by decide

/-- When every entry of the table lies strictly above the input, no adjacent
pair matches and the scan falls through to the initial `charge_state = 0`. -/
theorem scanPairs_all_above (l : List ChargeLevel) (v : Int)
    (h : ∀ e ∈ l, v < e.mv) : scanPairs l v = some 0 := by
  induction l with
  | nil => rfl
  | cons a t ih =>
    cases t with
    | nil => rfl
    | cons b r =>
      have ha : v < a.mv := h a (List.mem_cons_self a _)
      have hcond : ¬(a.mv ≤ v ∧ v ≤ b.mv) := by omega
      simp only [scanPairs, if_neg hcond]
      exact ih fun e he => h e (List.mem_cons_of_mem a he)

/-- Unfolding of the estimator on the shipped table: the last breakpoint is
`{4177, 100}`, so the saturation branch compares against 4177. -/
theorem pct_any_lut_eq (v : Int) :
    lithium_ion_mv_to_pct_any charge_level_lut v =
      if (4177 : Int) ≤ v then some 100 else scanPairs charge_level_lut v := rfl

/-- Below the first breakpoint the generic estimator falls through to 0. -/
theorem pct_any_below (v : Int) (hv : v < 3434) :
    lithium_ion_mv_to_pct_any charge_level_lut v = some 0 := by
  rw [pct_any_lut_eq, if_neg (by omega)]
  exact scanPairs_all_above charge_level_lut v
    fun e he => lt_of_lt_of_le hv (charge_level_lut_min e he)

/-- Below the first breakpoint the estimator returns 0. -/
theorem pct_below (v : Int) (hv : v < 3434) : lithium_ion_mv_to_pct v = 0 := by
  unfold lithium_ion_mv_to_pct
  rw [pct_any_below v hv]
  rfl

/-- At and above the last breakpoint the estimator returns 100. -/
theorem pct_above (v : Int) (hv : 4177 ≤ v) : lithium_ion_mv_to_pct v = 100 := by
  unfold lithium_ion_mv_to_pct
  rw [pct_any_lut_eq, if_pos hv]
  rfl

/-- Exhaustive single-step monotonicity check across the interpolation
region of the shipped table. -/
theorem pct_step_mid : ∀ k : Nat, k < 744 →
    lithium_ion_mv_to_pct (3433 + k) ≤ lithium_ion_mv_to_pct (3433 + k + 1) := by decide

/-- Exhaustive totality-and-range check across the interpolation region of
the shipped table: the result is defined and at most 100. -/
theorem pct_tot_mid : ∀ k : Nat, k < 743 →
    (lithium_ion_mv_to_pct_any charge_level_lut (3434 + k)).getD 101 ≤ 100 := by decide

/-- Single-step monotonicity of the estimator on all of ℤ. -/
theorem pct_step (v : Int) : lithium_ion_mv_to_pct v ≤ lithium_ion_mv_to_pct (v + 1) := by
  rcases lt_or_le v 3433 with h | h
  · rw [pct_below v (by omega)]
    exact Nat.zero_le _
  · rcases lt_or_le v 4177 with h2 | h2
    · have h3 : v = 3433 + (((v - 3433).toNat : Nat) : Int) := by omega
      rw [h3]
      exact pct_step_mid (v - 3433).toNat (by omega)
    · rw [pct_above v h2, pct_above (v + 1) (by omega)]

/-! ## Claim theorems -/

/-- C1: for input 3650 mV the estimator interpolates in the bracket
`{3643, 42}`–`{3656, 46}` — the scan resolves to exactly that pair — and
returns exactly 44, the truncation of `42 + (46-42)·(3650-3643)/(3656-3643)`
computed by true division. -/
theorem interpolation_midpoint_3650 :
    lithium_ion_mv_to_pct 3650 = 44 ∧
    scanPairs charge_level_lut 3650 = interpolate ⟨3643, 42⟩ ⟨3656, 46⟩ 3650 ∧
    interpolate ⟨3643, 42⟩ ⟨3656, 46⟩ 3650 = some 44 ∧
    intTrunc (42 * (3656 - 3643) + (46 - 42) * (3650 - 3643)) (3656 - 3643) = 44 ∧
    (42 : ℚ) + (46 - 42) * (3650 - 3643) / (3656 - 3643) = 574 / 13 ∧
    ⌊(574 : ℚ) / 13⌋ = 44 := by
  refine ⟨by decide, by decide, by decide, by decide, by norm_num, ?_⟩
  rw [Int.floor_eq_iff]
  constructor <;> norm_num

/-- C2: evaluation at the failing input.  With a table whose first two
breakpoints share voltage 3434 (lower percent 5) and input 3434, the matched
bracket has zero width: the C slope computation divides by zero, the
interpolated product is NaN, and the conversion to `uint8_t` is undefined
(modelled `none`) — the function does not guard the division and does not
return the lower breakpoint's percent 5. -/
theorem division_by_zero_unguarded :
    interpolate ⟨3434, 5⟩ ⟨3434, 9⟩ 3434 = none ∧
    lithium_ion_mv_to_pct_any malformed_lut 3434 = none ∧
    lithium_ion_mv_to_pct_any malformed_lut 3434 ≠ some 5 := by decide

/-- C3: the estimator is monotonically non-decreasing over all integer
inputs. -/
theorem lithium_ion_mv_to_pct_monotone :
    ∀ v1 v2 : Int, v1 ≤ v2 → lithium_ion_mv_to_pct v1 ≤ lithium_ion_mv_to_pct v2 :=
  fun _ _ h => monotone_int_of_le_succ pct_step h

/-- Witness: monotonicity applied at 3500 ≤ 3700. -/
theorem lithium_ion_mv_to_pct_monotone_witness :
    lithium_ion_mv_to_pct 3500 ≤ lithium_ion_mv_to_pct 3700 :=
  lithium_ion_mv_to_pct_monotone 3500 3700 (by decide)

/-- C4: the estimator is total over integer inputs: every input yields a
defined percent in [0, 100]; below-range inputs degrade to 0 and above-range
inputs to 100. -/
theorem lithium_ion_mv_to_pct_total :
    ∀ v : Int, ∃ n : Nat,
      lithium_ion_mv_to_pct_any charge_level_lut v = some n ∧ n ≤ 100 ∧
      (v < 3434 → n = 0) ∧ (4177 ≤ v → n = 100) := by
  intro v
  rcases lt_or_le v 3434 with h | h
  · exact ⟨0, pct_any_below v h, by omega, fun _ => rfl, fun h2 => by omega⟩
  · rcases lt_or_le v 4177 with h2 | h2
    · have h3 : v = 3434 + (((v - 3434).toNat : Nat) : Int) := by omega
      have h4 := pct_tot_mid (v - 3434).toNat (by omega)
      rw [← h3] at h4
      cases hc : lithium_ion_mv_to_pct_any charge_level_lut v with
      | none => rw [hc] at h4; simp [Option.getD] at h4
      | some n =>
          rw [hc] at h4
          exact ⟨n, rfl, by simpa using h4, fun hlt => by omega, fun hge => by omega⟩
    · exact ⟨100, by rw [pct_any_lut_eq, if_pos h2], by omega, fun hlt => by omega, fun _ => rfl⟩

/-- Witness: totality at input 5000. -/
theorem lithium_ion_mv_to_pct_total_witness :
    ∃ n : Nat,
      lithium_ion_mv_to_pct_any charge_level_lut 5000 = some n ∧ n ≤ 100 ∧
      ((5000 : Int) < 3434 → n = 0) ∧ ((4177 : Int) ≤ 5000 → n = 100) :=
  lithium_ion_mv_to_pct_total 5000

/-- C5: at and above the last breakpoint's voltage 4177 the estimator
saturates to 100. -/
theorem upper_saturation :
    charge_level_lut.getLast? = some ⟨4177, 100⟩ ∧
    ∀ v : Int, 4177 ≤ v → lithium_ion_mv_to_pct v = 100 :=
  ⟨rfl, pct_above⟩

/-- Witness: upper saturation at 5000. -/
theorem upper_saturation_witness : lithium_ion_mv_to_pct 5000 = 100 :=
  upper_saturation.2 5000 (by decide)

/-- C6: for inputs below the first breakpoint's voltage 3434 no adjacent
breakpoint pair matches during the scan, the scan falls through to the
initial 0, and the estimator returns 0. -/
theorem lower_saturation_fallthrough :
    ∀ v : Int, v < 3434 →
      (∀ p ∈ charge_level_lut.zip charge_level_lut.tail, ¬(p.1.mv ≤ v ∧ v ≤ p.2.mv)) ∧
      scanPairs charge_level_lut v = some 0 ∧
      lithium_ion_mv_to_pct v = 0 := by
  intro v hv
  refine ⟨?_, ?_, pct_below v hv⟩
  · intro p hp hcontra
    have h1 : p.1 ∈ charge_level_lut := (List.of_mem_zip hp).1
    have h2 := charge_level_lut_min p.1 h1
    omega
  · exact scanPairs_all_above charge_level_lut v
      fun e he => lt_of_lt_of_le hv (charge_level_lut_min e he)

/-- Witness: fallthrough at 3000. -/
theorem lower_saturation_fallthrough_witness :
    (∀ p ∈ charge_level_lut.zip charge_level_lut.tail,
      ¬(p.1.mv ≤ (3000 : Int) ∧ (3000 : Int) ≤ p.2.mv)) ∧
    scanPairs charge_level_lut 3000 = some 0 ∧
    lithium_ion_mv_to_pct 3000 = 0 :=
  lower_saturation_fallthrough 3000 (by decide)

/-- C7: every input equal to a breakpoint voltage of the shipped table maps
to exactly that breakpoint's stored percent; in particular 3434 ↦ 0 and
4177 ↦ 100. -/
theorem breakpoint_exact :
    (∀ e ∈ charge_level_lut, lithium_ion_mv_to_pct e.mv = e.pct) ∧
    lithium_ion_mv_to_pct 3434 = 0 ∧ lithium_ion_mv_to_pct 4177 = 100 := by decide

/-- Witness: the breakpoint `{3656, 46}` hits its stored percent. -/
theorem breakpoint_exact_witness :
    lithium_ion_mv_to_pct (ChargeLevel.mk 3656 46).mv = (ChargeLevel.mk 3656 46).pct :=
  breakpoint_exact.1 ⟨3656, 46⟩ (by decide)

/-- C8, counterexample: when the ADC read fails with -5 but the following
power-gate disable also fails with -22, the cycle returns -22, not the
read's error code. -/
theorem read_error_code_masked :
    (bvd_sample_fetch env_read_and_off_fail SensorChannel.all ⟨3700, 50⟩).rc = -22 ∧
    env_read_and_off_fail.adcRc = -5 ∧
    (bvd_sample_fetch env_read_and_off_fail SensorChannel.all ⟨3700, 50⟩).rc ≠
      env_read_and_off_fail.adcRc := by decide

/-- C8 (amended): if the cycle reaches the ADC read and the read fails, the
stored voltage and state-of-charge fields are left unchanged, and the read's
error code is returned unless a configured power gate's disable call then
fails, in which case that call's error code is returned instead. -/
theorem read_failure_fields_retained :
    ∀ (env : FetchEnv) (chan : SensorChannel) (d : BvdData),
      channelSupported chan = true → (env.hasGpio = true → env.gpioOnRc = 0) →
      env.adcRc ≠ 0 →
      (bvd_sample_fetch env chan d).data = d ∧
      (bvd_sample_fetch env chan d).rc =
        (if env.hasGpio = true ∧ env.gpioOffRc ≠ 0 then env.gpioOffRc else env.adcRc) := by
  intro env chan d hchan hon hrc
  cases hg : env.hasGpio with
  | false => simp [bvd_sample_fetch, hchan, hg, hrc]
  | true =>
      have hon0 : env.gpioOnRc = 0 := hon hg
      by_cases hoff : env.gpioOffRc = 0 <;>
        simp [bvd_sample_fetch, hchan, hg, hon0, hrc, hoff]

/-- Witness: read failure with a present, well-behaving power gate retains
the previous fields and returns the read's code -5. -/
theorem read_failure_fields_retained_witness :
    (bvd_sample_fetch env_read_fail SensorChannel.all ⟨3700, 50⟩).data = ⟨3700, 50⟩ ∧
    (bvd_sample_fetch env_read_fail SensorChannel.all ⟨3700, 50⟩).rc =
      (if env_read_fail.hasGpio = true ∧ env_read_fail.gpioOffRc ≠ 0 then env_read_fail.gpioOffRc
       else env_read_fail.adcRc) :=
  read_failure_fields_retained env_read_fail SensorChannel.all ⟨3700, 50⟩ rfl (fun _ => rfl)
    (by decide)

/-- C9: whenever the power gate is present and its enable succeeds, the cycle
commands the gate active and then inactive on every exit path — whatever the
ADC read and the gate disable return — so the last command before returning
is always inactive. -/
theorem power_gate_released :
    ∀ (env : FetchEnv) (chan : SensorChannel) (d : BvdData),
      channelSupported chan = true → env.hasGpio = true → env.gpioOnRc = 0 →
      (bvd_sample_fetch env chan d).gpioCmds = [true, false] ∧
      (bvd_sample_fetch env chan d).gpioCmds.getLast? = some false := by
  intro env chan d hchan hg hon
  have h : (bvd_sample_fetch env chan d).gpioCmds = [true, false] := by
    by_cases hoff : env.gpioOffRc = 0 <;> by_cases hrc : env.adcRc = 0 <;>
      simp [bvd_sample_fetch, hchan, hg, hon, hoff, hrc]
  exact ⟨h, by rw [h]; rfl⟩

/-- Witness: with the gate present, the enable succeeding and the ADC read
failing, the gate is still commanded inactive before the return. -/
theorem power_gate_released_witness :
    (bvd_sample_fetch env_read_fail SensorChannel.all ⟨3700, 50⟩).gpioCmds = [true, false] ∧
    (bvd_sample_fetch env_read_fail SensorChannel.all ⟨3700, 50⟩).gpioCmds.getLast? =
      some false :=
  power_gate_released env_read_fail SensorChannel.all ⟨3700, 50⟩ rfl rfl rfl

/-- C10: in a successful cycle the 64-bit scaled value
`val * full_ohm / output_ohm` is stored into the 16-bit `voltage` reduced
modulo `2^16` — wrap-around, not saturation — and the percent is computed
from the wrapped value. -/
theorem millivolts_wrap :
    ∀ (env : FetchEnv) (chan : SensorChannel) (d : BvdData),
      channelSupported chan = true → (env.hasGpio = true → env.gpioOnRc = 0) →
      env.adcRc = 0 → 0 < env.output_ohm → env.full_ohm < 2 ^ 32 →
      env.output_ohm < 2 ^ 32 → 0 ≤ env.adcMv → env.adcMv < 2 ^ 31 →
      (bvd_sample_fetch env chan d).data.voltage = scaled_millivolts env % 2 ^ 16 ∧
      (bvd_sample_fetch env chan d).data.state_of_charge =
        lithium_ion_mv_to_pct (toInt16 (scaled_millivolts env % 2 ^ 16)) ∧
      (2 ^ 16 ≤ scaled_millivolts env →
        (bvd_sample_fetch env chan d).data.voltage ≠ scaled_millivolts env) := by
  intro env chan d hchan hon hrc _ _ _ _ _
  have hv : (bvd_sample_fetch env chan d).data.voltage = scaled_millivolts env % 2 ^ 16 ∧
      (bvd_sample_fetch env chan d).data.state_of_charge =
        lithium_ion_mv_to_pct (toInt16 (scaled_millivolts env % 2 ^ 16)) := by
    cases hg : env.hasGpio with
    | false => simp [bvd_sample_fetch, hchan, hg, hrc]
    | true =>
        have hon0 : env.gpioOnRc = 0 := hon hg
        by_cases hoff : env.gpioOffRc = 0 <;>
          simp [bvd_sample_fetch, hchan, hg, hon0, hrc, hoff]
  refine ⟨hv.1, hv.2, fun hge => ?_⟩
  rw [hv.1]
  have hlt := Nat.mod_lt (scaled_millivolts env) (y := 2 ^ 16) (by norm_num)
  omega

/-- Witness: scaled value 3563·20/1 = 71260 wraps to 5724 in the stored
voltage instead of saturating. -/
theorem millivolts_wrap_witness :
    (bvd_sample_fetch env_wrap SensorChannel.all ⟨0, 0⟩).data.voltage =
      scaled_millivolts env_wrap % 2 ^ 16 ∧
    (bvd_sample_fetch env_wrap SensorChannel.all ⟨0, 0⟩).data.state_of_charge =
      lithium_ion_mv_to_pct (toInt16 (scaled_millivolts env_wrap % 2 ^ 16)) ∧
    (2 ^ 16 ≤ scaled_millivolts env_wrap →
      (bvd_sample_fetch env_wrap SensorChannel.all ⟨0, 0⟩).data.voltage ≠
        scaled_millivolts env_wrap) :=
  millivolts_wrap env_wrap SensorChannel.all ⟨0, 0⟩ rfl (by decide) rfl (by decide)
    (by decide) (by decide) (by decide) (by decide)
